import Mathlib

/-!
# Verification of the driftv8.xyz payment/storage core

Shallow embedding of the order-processing backend:

* `MemStorage` and its operations (`server/storage.ts`, given as
  `src/unnamed/part_000` / `part_001`): orders, cart items, donations and the
  webhook-event idempotency ledger;
* the Stripe webhook processor `handleStripeWebhook`
  (`src/unnamed/part_000`);
* the `/stripe/donation-success` redirect handler and the order-rating and
  cart routes from `registerRoutes` (`src/unnamed/part_001`);
* checkout initiation `createStripeCheckoutSession` (`src/stripe.ts`).

External collaborators (the Stripe SDK, the Resend email transport, the
drizzle database handle and the zod schemas, none of which are part of the
analyzed sources) are modelled as explicit inputs: each handler takes an
environment record carrying the outcome of every external call it makes.
The in-memory branch of the idempotency ledger (`getDb()` returning null)
is the branch modelled here; the durable branch delegates to the external
database.

JavaScript-specific primitives (template-literal number formatting,
truthiness, `parseFloat`, `charAt(0).toUpperCase() + slice(1)`) are modelled
first, as total Lean functions on `Nat`/`Int`/`Rat`/`String`.
-/

namespace DriftV8

/-! ## JavaScript primitive models -/

/-- Decimal digit list of a natural number, most significant digit first.
Models the digits produced by JavaScript template-literal interpolation of a
non-negative integer. -/
def natDigitList (n : Nat) : List Char :=
  if h : n < 10 then [Nat.digitChar n]
  else natDigitList (n / 10) ++ [Nat.digitChar (n % 10)]
  decreasing_by
    exact Nat.div_lt_self (Nat.lt_of_lt_of_le (by norm_num) (Nat.le_of_not_lt h)) (by norm_num)

/-- Decimal string of a natural number; models `${n}` in a JS template
literal for a non-negative integer `n`.  `Nat.repr` is the run-time decimal
printer; `natDigitList` above is its recursion-friendly specification, and
the two agree (`natToString_eq_mk_natDigitList`). -/
def natToString (n : Nat) : String :=
  Nat.repr n

/-- Decimal string of an integer; models `${n}` / `n.toString()` for a JS
integer-valued number. -/
def intToString (n : Int) : String :=
  if n < 0 then "-" ++ natToString n.natAbs else natToString n.natAbs

/-- Decode a digit list back to the number it denotes (left fold, base 10). -/
def decodeDigits (l : List Char) : Nat :=
  l.foldl (fun acc c => acc * 10 + (c.toNat - 48)) 0

theorem digitChar_decode (m : Nat) (hm : m < 10) : (Nat.digitChar m).toNat - 48 = m := by
  interval_cases m <;> rfl

theorem decodeDigits_append (l : List Char) (c : Char) (a : Nat) :
    List.foldl (fun acc c => acc * 10 + (c.toNat - 48)) a (l ++ [c]) =
      (List.foldl (fun acc c => acc * 10 + (c.toNat - 48)) a l) * 10 + (c.toNat - 48) := by
  simp [List.foldl_append]

theorem natDigitList_foldl (n : Nat) : ∀ a : Nat,
    List.foldl (fun acc c => acc * 10 + (c.toNat - 48)) a (natDigitList n) =
      a * 10 ^ (natDigitList n).length + n := by
  induction n using Nat.strong_induction_on with
  | _ n ih =>
    intro a
    rw [natDigitList]
    by_cases h : n < 10
    · simp only [h, dif_pos]
      simp [List.foldl, digitChar_decode n h]
    · simp only [h, dif_neg, not_false_iff]
      have hpos : 0 < n := Nat.lt_of_lt_of_le (by norm_num) (Nat.le_of_not_lt h)
      have hdiv : n / 10 < n := Nat.div_lt_self hpos (by norm_num)
      rw [decodeDigits_append, ih (n / 10) hdiv a, digitChar_decode (n % 10) (Nat.mod_lt n (by norm_num))]
      rw [List.length_append, List.length_cons, List.length_nil]
      rw [pow_succ, ← mul_assoc]
      have hdm := Nat.div_add_mod n 10
      generalize a * 10 ^ (natDigitList (n / 10)).length = Y
      omega

theorem decodeDigits_natDigitList (n : Nat) : decodeDigits (natDigitList n) = n := by
  have := natDigitList_foldl n 0
  simpa [decodeDigits] using this

theorem natDigitList_injective : Function.Injective natDigitList := by
  intro a b h
  have := decodeDigits_natDigitList a
  rw [h, decodeDigits_natDigitList b] at this
  exact this.symm

theorem toDigitsCore_eq_natDigitList (f : Nat) :
    ∀ (n : Nat) (acc : List Char), n < f →
      Nat.toDigitsCore 10 f n acc = natDigitList n ++ acc := by
  induction f with
  | zero => intro n acc h; omega
  | succ f ih =>
    intro n acc h
    rw [Nat.toDigitsCore]
    by_cases h10 : n < 10
    · have hdiv0 : n / 10 = 0 := Nat.div_eq_of_lt h10
      simp only [hdiv0, if_pos]
      rw [natDigitList]
      simp [h10, Nat.mod_eq_of_lt h10]
    · have hdiv0 : n / 10 ≠ 0 := by
        intro hc
        have := Nat.div_add_mod n 10
        have := Nat.mod_lt n (show 0 < 10 by norm_num)
        omega
      simp only [hdiv0, if_neg, not_false_iff]
      have hlt : n / 10 < f := by
        have : n / 10 < n := Nat.div_lt_self (by omega) (by norm_num)
        omega
      rw [ih (n / 10) _ hlt]
      conv_rhs => rw [natDigitList]
      simp [h10]

theorem natToString_eq_mk_natDigitList (n : Nat) :
    natToString n = String.mk (natDigitList n) := by
  show Nat.repr n = String.mk (natDigitList n)
  rw [Nat.repr, Nat.toDigits, List.asString]
  rw [toDigitsCore_eq_natDigitList (n + 1) n [] (Nat.lt_succ_self n)]
  simp

theorem natToString_injective : Function.Injective natToString := by
  intro a b h
  apply natDigitList_injective
  rw [natToString_eq_mk_natDigitList, natToString_eq_mk_natDigitList] at h
  have : (String.mk (natDigitList a)).data = (String.mk (natDigitList b)).data := by rw [h]
  simpa using this

/-- JS string truthiness for an optional string value: `undefined`, `null`
and the empty string are falsy, every other string is truthy. -/
def jsFalsy : Option String → Bool
  | none => true
  | some s => s = ""

/-- `a || b` for an optional string `a` and string default `b`
(JS short-circuit on falsiness). -/
def jsOr (a : Option String) (b : String) : String :=
  match a with
  | none => b
  | some s => if s = "" then b else s

/-- `s.charAt(0).toUpperCase() + s.slice(1)`: capitalize the first
character (for the ASCII provider type codes this is `Char.toUpper`);
the empty string maps to itself. -/
def capitalizeFirst (s : String) : String :=
  match s.data with
  | [] => ""
  | c :: cs => String.mk (c.toUpper :: cs)

/-- `((cents)/100).toString()` for an integer number of minor units, as JS
prints it: the shortest decimal for the exact value `cents / 100`
(trailing zeros of the fractional part dropped, no fractional part when the
amount is a whole number of dollars). -/
def centsToDecimalString (cents : Int) : String :=
  let sign := if cents < 0 then "-" else ""
  let whole := cents.natAbs / 100
  let frac := cents.natAbs % 100
  if frac = 0 then sign ++ natToString whole
  else if frac % 10 = 0 then sign ++ natToString whole ++ "." ++ natToString (frac / 10)
  else
    sign ++ natToString whole ++ "." ++
      (if frac < 10 then "0" ++ natToString frac else natToString frac)

/-- `((cents)/100).toFixed(2)` for an integer number of minor units: always
two fractional digits. -/
def centsToFixed2 (cents : Int) : String :=
  let sign := if cents < 0 then "-" else ""
  let whole := cents.natAbs / 100
  let frac := cents.natAbs % 100
  sign ++ natToString whole ++ "." ++
    (if frac < 10 then "0" ++ natToString frac else natToString frac)

/-! ## Data model (`server/storage.ts`)

The entity records carry exactly the fields the analyzed code reads or
writes.  `id` values (produced by `randomUUID()`) and creation timestamps
(produced by `new Date()`) are nondeterministic inputs of the runtime, so
every creation operation takes them as explicit arguments. -/

/-- `InsertOrder`: the caller-supplied part of an order.  The insert schema
carries no order number — `createOrder` overwrites `id`, `orderNumber`,
`rating` and `createdAt` unconditionally after spreading the insert data. -/
structure InsertOrder where
  customerName : String
  customerEmail : String
  amount : String
  paymentMethod : String
  description : String
  deriving DecidableEq

/-- A persisted order. -/
structure Order where
  customerName : String
  customerEmail : String
  amount : String
  paymentMethod : String
  description : String
  id : String
  orderNumber : String
  rating : Option String
  createdAt : Nat
  deriving DecidableEq

/-- `InsertCartItem`: caller-supplied cart item data.  The zod schema lives
outside the analyzed sources; the fields modelled are the ones the storage
layer reads (`imageUrls`) plus the product reference and a possible
caller-supplied quantity, which `addCartItem` ignores. -/
structure InsertCartItem where
  productId : String
  quantity : Option String
  imageUrls : Option (List String)
  deriving DecidableEq

/-- A persisted cart item. -/
structure CartItem where
  productId : String
  imageUrls : Option (List String)
  id : String
  quantity : String
  createdAt : Nat
  deriving DecidableEq

/-- `InsertDonation`: caller-supplied donation data. -/
structure InsertDonation where
  donorName : String
  donorEmail : String
  amount : String
  message : Option String
  deriving DecidableEq

/-- A persisted donation. -/
structure Donation where
  donorName : String
  donorEmail : String
  amount : String
  message : Option String
  id : String
  createdAt : Nat
  deriving DecidableEq

/-! JS `Map` model: an association list in insertion order; `set` on an
existing key replaces the value in place, otherwise appends. -/

/-- `Map.get`. -/
def mapGet (m : List (String × α)) (k : String) : Option α :=
  (m.find? (fun p => p.1 = k)).map (·.2)

/-- `Map.set`. -/
def mapSet (m : List (String × α)) (k : String) (v : α) : List (String × α) :=
  if m.any (fun p => p.1 = k) then
    m.map (fun p => if p.1 = k then (k, v) else p)
  else m ++ [(k, v)]

/-- `Map.delete`, returning whether the key was present. -/
def mapDelete (m : List (String × α)) (k : String) : Bool × List (String × α) :=
  (m.any (fun p => p.1 = k), m.filter (fun p => ¬ p.1 = k))

/-- The `MemStorage` state: the entity maps (in insertion order), the
in-memory processed-event set and the order-number counter.  Custom orders
and contact submissions are independent of every claim and are omitted. -/
structure MemStorage where
  orders : List (String × Order)
  cartItems : List (String × CartItem)
  donations : List (String × Donation)
  processedEvents : List String
  orderCounter : Nat
  deriving DecidableEq

/-- The `MemStorage` constructor: empty maps, counter `1000`. -/
def mkMemStorage : MemStorage :=
  { orders := [], cartItems := [], donations := [], processedEvents := [], orderCounter := 1000 }

/-- `generateOrderNumber`: increment the counter, return
`` `ORD-${this.orderCounter}` ``. -/
def generateOrderNumber (st : MemStorage) : String × MemStorage :=
  let st' := { st with orderCounter := st.orderCounter + 1 }
  ("ORD-" ++ natToString st'.orderCounter, st')

/-- `getOrder(id)`. -/
def getOrder (st : MemStorage) (id : String) : Option Order :=
  mapGet st.orders id

/-- `createOrder(insertOrder)`: spread the insert data, then set the
generated `id`, the generated `orderNumber`, `rating: null` and the
creation timestamp, and store under the generated id. -/
def createOrder (st : MemStorage) (insertOrder : InsertOrder) (id : String) (now : Nat) :
    Order × MemStorage :=
  let (num, st') := generateOrderNumber st
  let order : Order :=
    { customerName := insertOrder.customerName
      customerEmail := insertOrder.customerEmail
      amount := insertOrder.amount
      paymentMethod := insertOrder.paymentMethod
      description := insertOrder.description
      id := id
      orderNumber := num
      rating := none
      createdAt := now }
  (order, { st' with orders := mapSet st'.orders id order })

/-- `updateOrderRating(id, rating)`: absent id gives `undefined`; otherwise
replace the stored order with a copy whose `rating` is `rating.toString()`. -/
def updateOrderRating (st : MemStorage) (id : String) (rating : Int) :
    Option Order × MemStorage :=
  match mapGet st.orders id with
  | none => (none, st)
  | some order =>
    let updatedOrder := { order with rating := some (intToString rating) }
    (some updatedOrder, { st with orders := mapSet st.orders id updatedOrder })

/-- Stable insertion (descending by `createdAt`), modelling the comparator
`(a, b) => b.createdAt - a.createdAt` of the JS stable sort. -/
def insertByCreatedAtDesc (x : CartItem) : List CartItem → List CartItem
  | [] => [x]
  | y :: ys =>
    if y.createdAt < x.createdAt then x :: y :: ys else y :: insertByCreatedAtDesc x ys

/-- `getCartItems()`: values sorted most-recent-first by creation time. -/
def getCartItems (st : MemStorage) : List CartItem :=
  (st.cartItems.map (·.2)).foldl (fun acc x => insertByCreatedAtDesc x acc) []

/-- `getCartItem(id)`. -/
def getCartItem (st : MemStorage) (id : String) : Option CartItem :=
  mapGet st.cartItems id

/-- `addCartItem(insertItem)`: spread the insert data, then set
`imageUrls` (defaulting `undefined` to `null`), the generated `id`,
`quantity: "1"` — unconditionally, after the spread — and the creation
timestamp. -/
def addCartItem (st : MemStorage) (insertItem : InsertCartItem) (id : String) (now : Nat) :
    CartItem × MemStorage :=
  let item : CartItem :=
    { productId := insertItem.productId
      imageUrls := insertItem.imageUrls
      id := id
      quantity := "1"
      createdAt := now }
  (item, { st with cartItems := mapSet st.cartItems id item })

/-- `updateCartItemQuantity(id, quantity)`: absent id gives `undefined`;
otherwise replace the item with a copy whose `quantity` is
`quantity.toString()`. -/
def updateCartItemQuantity (st : MemStorage) (id : String) (quantity : Int) :
    Option CartItem × MemStorage :=
  match mapGet st.cartItems id with
  | none => (none, st)
  | some item =>
    let updatedItem := { item with quantity := intToString quantity }
    (some updatedItem, { st with cartItems := mapSet st.cartItems id updatedItem })

/-- `removeCartItem(id)`: `Map.delete`. -/
def removeCartItem (st : MemStorage) (id : String) : Bool × MemStorage :=
  let (found, items) := mapDelete st.cartItems id
  (found, { st with cartItems := items })

/-- `createDonation(insertDonation)`: spread, default `message` to `null`,
set the generated id and timestamp. -/
def createDonation (st : MemStorage) (insertDonation : InsertDonation) (id : String) (now : Nat) :
    Donation × MemStorage :=
  let donation : Donation :=
    { donorName := insertDonation.donorName
      donorEmail := insertDonation.donorEmail
      amount := insertDonation.amount
      message := insertDonation.message
      id := id
      createdAt := now }
  (donation, { st with donations := mapSet st.donations id donation })

/-- `isEventProcessed(eventId)`, in-memory branch (`getDb()` null — the
durable branch delegates to the external database and falls back to this
set on error): membership in the processed-event set. -/
def isEventProcessed (st : MemStorage) (eventId : String) : Bool :=
  st.processedEvents.contains eventId

/-- `markEventProcessed(eventId)`, in-memory branch: `Set.add` — a no-op
when the id is already present. -/
def markEventProcessed (st : MemStorage) (eventId : String) : MemStorage :=
  if st.processedEvents.contains eventId then st
  else { st with processedEvents := st.processedEvents ++ [eventId] }

/-! ## Payment event processor (`handleStripeWebhook`, `src/unnamed/part_000`)

The handler is embedded as a function from an environment (the outcome of
every external interaction: configuration, signature verification, the
payment-intent retrieval, the email sends) and a storage state to a reply,
the new storage state and a trace of the externally visible actions the
handler performed, in program order. -/

/-- `charge?.payment_method_details` of the retrieved payment intent:
the provider type code and the flattened `card?.wallet?.type` chain. -/
structure PMDetails where
  type : String
  cardWalletType : Option String
  deriving DecidableEq

/-- Lines 53–86 of the handler: the payment-method normalization cascade.
`none` is the case where no payment-method detail is available
(`paymentMethodType` keeps its initial value `'Unknown'`). -/
def normalizePmDetails : Option PMDetails → String
  | none => "Unknown"
  | some pmDetails =>
    if pmDetails.type = "card" then
      if pmDetails.cardWalletType = some "apple_pay" then "Apple Pay"
      else if pmDetails.cardWalletType = some "google_pay" then "Google Pay"
      else "Credit/Debit Card"
    else if pmDetails.type = "link" then "Link"
    else if pmDetails.type = "klarna" then "Klarna"
    else if pmDetails.type = "cashapp" then "Cash App"
    else if pmDetails.type = "us_bank_account" then "ACH Bank Transfer"
    else if pmDetails.type = "crypto" then "Cryptocurrency"
    else capitalizeFirst pmDetails.type

/-- `a || b` for an optional integer (`session.amount_total || 0`):
`null` and `0` are falsy. -/
def jsOrInt (a : Option Int) (b : Int) : Int :=
  match a with
  | none => b
  | some v => if v = 0 then b else v

/-- The fields of a `Stripe.Checkout.Session` the handlers read.  Optional
chains (`metadata?.customerName`, `customer_details?.email`) are flattened
to a single `Option`. -/
structure StripeSession where
  id : String
  payment_intent : Option String
  amount_total : Option Int
  metadataCustomerName : Option String
  metadataDescription : Option String
  customerDetailsName : Option String
  customerDetailsEmail : Option String
  customer_email : Option String
  deriving DecidableEq

/-- A verified `Stripe.Event`: its id, its `type`, and `data.object` read
as a checkout session. -/
structure StripeEvent where
  id : String
  type : String
  session : StripeSession
  deriving DecidableEq

/-- Outcome of `stripe.webhooks.constructEvent`: a verified event, or the
thrown error's message. -/
inductive VerifyOutcome where
  | failed (msg : String)
  | verified (event : StripeEvent)
  deriving DecidableEq

/-- Externally visible actions of the handlers, in program order. -/
inductive Action where
  | checkLedger (eventId : String) (found : Bool)
  | markLedger (eventId : String)
  | retrievePaymentIntent (paymentIntentId : String)
  | createOrderAct (order : Order)
  | notifyOrder (orderNumber : String) (ok : Bool)
  | retrieveSession (sessionId : String)
  | createDonationAct (donation : Donation)
  | logError
  deriving DecidableEq

/-- Side-effecting work in the sense of the spec: order/donation creation
and notification dispatch.  Ledger reads, ledger writes and provider reads
are not side effects on the store. -/
def Action.isSideEffect : Action → Bool
  | .createOrderAct _ => true
  | .notifyOrder _ _ => true
  | .createDonationAct _ => true
  | _ => false

/-- Is this action a ledger write? -/
def Action.isMark : Action → Bool
  | .markLedger _ => true
  | _ => false

/-- Is this action an order or donation creation? -/
def Action.isCreation : Action → Bool
  | .createOrderAct _ => true
  | .createDonationAct _ => true
  | _ => false

/-- Every side-effecting action of the trace is preceded by a ledger write
(the accumulator records whether a ledger write has happened yet). -/
def ledgerBeforeSideEffects : Bool → List Action → Bool
  | _, [] => true
  | marked, a :: rest =>
    if a.isMark then ledgerBeforeSideEffects true rest
    else if a.isSideEffect then marked && ledgerBeforeSideEffects marked rest
    else ledgerBeforeSideEffects marked rest

/-- Every ledger write of the trace is preceded by an order/donation
creation. -/
def creationBeforeMarks : Bool → List Action → Bool
  | _, [] => true
  | created, a :: rest =>
    if a.isCreation then creationBeforeMarks true rest
    else if a.isMark then created && creationBeforeMarks created rest
    else creationBeforeMarks created rest

/-- The webhook endpoint's replies. -/
inductive WebhookReply where
  | notConfigured
  | missingSignature
  | signatureError (msg : String)
  | alreadyProcessed
  | received
  | handlerFailed
  deriving DecidableEq

/-- HTTP status of each reply. -/
def WebhookReply.status : WebhookReply → Nat
  | .notConfigured => 503
  | .missingSignature => 400
  | .signatureError _ => 400
  | .alreadyProcessed => 200
  | .received => 200
  | .handlerFailed => 500

/-- A 200 acknowledgment carrying `received: true`. -/
def WebhookReply.isSuccessAck : WebhookReply → Bool
  | .alreadyProcessed => true
  | .received => true
  | _ => false

/-- The environment of one webhook delivery: configuration, headers, and
the outcome of each external call.  The payment-intent retrieval is
modelled as succeeding with `pmDetails` as
`charge?.payment_method_details`; a throw there would take the same
outer-catch path as the failing email send modelled by `emailOk`.
`emailOk` is whether all three sends inside `sendOrderConfirmation`
succeed — `sendEmail` (src/email.ts) logs a failure and re-throws it, and
`sendOrderConfirmation` does not catch, so the first failing send
propagates to the webhook handler's outer catch. -/
structure WebhookEnv where
  stripeConfigured : Bool
  sigHeader : Option String
  webhookSecret : Option String
  verifyResult : VerifyOutcome
  pmDetails : Option PMDetails
  newUuid : String
  now : Nat
  emailOk : Bool
  deriving DecidableEq

/-- Result of one webhook delivery. -/
structure WebhookResult where
  reply : WebhookReply
  state : MemStorage
  trace : List Action
  deriving DecidableEq

/-- `handleStripeWebhook` (src/unnamed/part_000, lines 12–118): reject when
unconfigured (503) or when signature header/secret is missing (400); verify
the signature (400 with the error message on failure); consult the ledger
and short-circuit with a success acknowledgment on a duplicate; otherwise
mark the event processed immediately, and for `checkout.session.completed`
normalize the payment method, create the order and send the confirmation
emails; a failing send reaches the outer catch, which logs and answers 500. -/
def handleStripeWebhook (env : WebhookEnv) (st : MemStorage) : WebhookResult :=
  if !env.stripeConfigured then ⟨.notConfigured, st, []⟩
  else if jsFalsy env.sigHeader || jsFalsy env.webhookSecret then ⟨.missingSignature, st, []⟩
  else
    match env.verifyResult with
    | .failed msg => ⟨.signatureError msg, st, []⟩
    | .verified event =>
      if isEventProcessed st event.id then
        ⟨.alreadyProcessed, st, [.checkLedger event.id true]⟩
      else
        let st1 := markEventProcessed st event.id
        let tr1 : List Action := [.checkLedger event.id false, .markLedger event.id]
        if event.type = "checkout.session.completed" then
          let session := event.session
          let paymentMethodType :=
            match session.payment_intent with
            | none => "Unknown"
            | some _ => normalizePmDetails env.pmDetails
          let tr2 := tr1 ++
            (match session.payment_intent with
             | none => []
             | some paymentIntentId => [Action.retrievePaymentIntent paymentIntentId])
          let orderData : InsertOrder :=
            { customerName :=
                jsOr session.metadataCustomerName (jsOr session.customerDetailsName "Unknown")
              customerEmail := jsOr session.customerDetailsEmail (jsOr session.customer_email "")
              amount := centsToDecimalString (jsOrInt session.amount_total 0)
              paymentMethod := paymentMethodType
              description := jsOr session.metadataDescription "Project V8 Order" }
          let (order, st2) := createOrder st1 orderData env.newUuid env.now
          let tr3 := tr2 ++ [Action.createOrderAct order]
          if env.emailOk then
            ⟨.received, st2, tr3 ++ [.notifyOrder order.orderNumber true]⟩
          else
            ⟨.handlerFailed, st2, tr3 ++ [.notifyOrder order.orderNumber false, .logError]⟩
        else ⟨.received, st1, tr1⟩

/-- Deliver the same webhook event `n` times in sequence (the provider's
at-least-once redelivery), threading the storage state; returns the final
state and the per-delivery results in order. -/
def deliverN (env : WebhookEnv) : Nat → MemStorage → MemStorage × List WebhookResult
  | 0, st => (st, [])
  | n + 1, st =>
    let r := handleStripeWebhook env st
    let (stf, rest) := deliverN env n r.state
    (stf, r :: rest)

/-! ## Donation success redirect (`/stripe/donation-success`,
`src/unnamed/part_001` lines 696–759) -/

/-- The fields of the retrieved donation checkout session the handler
reads. -/
structure DonationSession where
  payment_status : String
  metadataType : Option String
  metadataDonorName : Option String
  metadataDonorEmail : Option String
  metadataMessage : Option String
  amount_total : Option Int
  deriving DecidableEq

/-- Environment of one donation-success redirect: the `session_id` query
parameter (`none` when absent or not a string), the outcome of the session
retrieval (`none` = the provider call threw), and the outcome of
`insertDonationSchema.parse` (the zod schema is outside the analyzed
sources). -/
structure DonationEnv where
  sessionId : Option String
  retrieved : Option DonationSession
  schemaOk : Bool
  newUuid : String
  now : Nat
  deriving DecidableEq

/-- Result of one donation-success redirect: the redirect target URL, the
new storage state and the action trace. -/
structure DonationResult where
  redirect : String
  state : MemStorage
  trace : List Action
  deriving DecidableEq

/-- The `/stripe/donation-success` handler: missing/non-string session id →
error redirect; ledger hit on `donation_<sessionId>` → success redirect with
no further action; otherwise retrieve the session, verify paid status and
donation metadata, compute the paid amount from the provider total, create
the donation record, and only then mark the ledger; schema or retrieval
failure degrades to an error redirect. -/
def handleDonationSuccess (env : DonationEnv) (st : MemStorage) : DonationResult :=
  if jsFalsy env.sessionId then ⟨"/?donation_error=missing_session", st, []⟩
  else
    let sid := env.sessionId.getD ""
    let key := "donation_" ++ sid
    if isEventProcessed st key then
      ⟨"/?donation_success=true", st, [.checkLedger key true]⟩
    else
      let tr2 : List Action := [.checkLedger key false, .retrieveSession sid]
      match env.retrieved with
      | none => ⟨"/?donation_error=processing_failed", st, tr2 ++ [.logError]⟩
      | some session =>
        if session.payment_status ≠ "paid" ∨ session.metadataType ≠ some "donation" ∨
            jsFalsy session.metadataDonorName ∨ jsFalsy session.metadataDonorEmail then
          ⟨"/?donation_error=payment_failed", st, tr2⟩
        else
          let amountPaid :=
            match session.amount_total with
            | none => "0"
            | some v => if v = 0 then "0" else centsToFixed2 v
          let donationData : InsertDonation :=
            { donorName := session.metadataDonorName.getD ""
              donorEmail := session.metadataDonorEmail.getD ""
              amount := amountPaid
              message := some (jsOr session.metadataMessage "") }
          if env.schemaOk then
            let (donation, st1) := createDonation st donationData env.newUuid env.now
            let st2 := markEventProcessed st1 key
            ⟨"/?donation_success=true", st2, tr2 ++ [.createDonationAct donation, .markLedger key]⟩
          else ⟨"/?donation_error=save_failed", st, tr2 ++ [.logError]⟩

/-! ## Checkout initiation (`createStripeCheckoutSession`, `src/stripe.ts`) -/

/-- ASCII digit test. -/
def isAsciiDigit (c : Char) : Bool := '0' ≤ c && c ≤ '9'

/-- The numeric prefix JS `parseFloat` recognizes, split into decidable
parts: sign, integer-part value, fraction-part value and fraction length;
`none` models `NaN` (no digit in the prefix at all).  Leading whitespace is
skipped; parsing stops at the first non-numeric character.  The exponent
suffix and `Infinity` are outside the modelled fragment: an exponent scales
the value by a positive power of ten and cannot change the sign tests the
analyzed code performs. -/
def parseFloatParts (s : String) : Option (Bool × Nat × Nat × Nat) :=
  let cs := s.data.dropWhile (fun c => c = ' ' || c = '\t' || c = '\n' || c = '\r')
  let signAndRest : Bool × List Char :=
    match cs with
    | '-' :: rest => (true, rest)
    | '+' :: rest => (false, rest)
    | _ => (false, cs)
  let neg := signAndRest.1
  let cs1 := signAndRest.2
  let intDigits := cs1.takeWhile isAsciiDigit
  let cs2 := cs1.drop intDigits.length
  let fracDigits :=
    match cs2 with
    | '.' :: rest => rest.takeWhile isAsciiDigit
    | _ => []
  if intDigits = [] && fracDigits = [] then none
  else some (neg, decodeDigits intDigits, decodeDigits fracDigits, fracDigits.length)

/-- JS `parseFloat` as an exact rational (`none` = `NaN`). -/
def jsParseFloat (s : String) : Option Rat :=
  (parseFloatParts s).map fun p =>
    let v : Rat := (p.2.1 : Rat) + (p.2.2.1 : Rat) / (10 ^ p.2.2.2 : Rat)
    if p.1 then -v else v

/-- JS `Math.round`: round half toward positive infinity. -/
def jsMathRound (x : Rat) : Int := ⌊x + 1 / 2⌋

/-- The request body of `POST /stripe/create-checkout-session`. -/
structure CheckoutBody where
  amount : Option String
  currency : Option String
  description : Option String
  customerEmail : Option String
  customerName : Option String
  deriving DecidableEq

/-- The parameters of the provider call `stripe.checkout.sessions.create`
that the handler builds (the fields derived from the request). -/
structure SessionParams where
  currency : String
  productName : String
  unitAmount : Int
  customerEmail : Option String
  metaCustomerName : String
  metaDescription : String
  deriving DecidableEq

/-- Replies of the checkout-creation endpoint. -/
inductive CheckoutReply where
  | notConfigured
  | invalidAmount
  | sessionCreated (sessionId : String) (url : String)
  | providerError
  deriving DecidableEq

/-- HTTP status of each checkout reply. -/
def CheckoutReply.status : CheckoutReply → Nat
  | .notConfigured => 503
  | .invalidAmount => 400
  | .sessionCreated _ _ => 200
  | .providerError => 500

/-- The amount validation
`!amount || isNaN(parseFloat(amount)) || parseFloat(amount) <= 0` of the
checkout endpoint, phrased as the condition for proceeding. -/
def checkoutAmountOk (amount : Option String) : Bool :=
  match amount with
  | none => false
  | some a =>
    if a = "" then false
    else
      match jsParseFloat a with
      | none => false
      | some v => 0 < v

/-- `createStripeCheckoutSession` (src/stripe.ts lines 11–64): 503 when
unconfigured; 400 when the amount is falsy, non-numeric or non-positive —
checked before the provider call; otherwise call the provider with the
session parameters (500 if the call throws).  The second component is the
provider call made, `none` when no call was made. -/
def createStripeCheckoutSession (configured : Bool) (body : CheckoutBody)
    (providerResult : Option (String × String)) : CheckoutReply × Option SessionParams :=
  if !configured then (.notConfigured, none)
  else
    if !checkoutAmountOk body.amount then (.invalidAmount, none)
    else
      let v := (jsParseFloat (body.amount.getD "")).getD 0
      let params : SessionParams :=
        { currency := body.currency.getD "usd"
          productName := jsOr body.description "Project V8 Order"
          unitAmount := jsMathRound (v * 100)
          customerEmail := body.customerEmail
          metaCustomerName := jsOr body.customerName ""
          metaDescription := jsOr body.description "" }
      match providerResult with
      | none => (.providerError, some params)
      | some (sid, url) => (.sessionCreated sid url, some params)

/-! ## Order rating route (`PATCH /api/orders/:id/rating`,
`src/unnamed/part_001` lines 541–556) -/

/-- Replies of the rating route. -/
inductive RatingReply where
  | badRating
  | ratingNotFound
  | ratingOk (order : Order)
  deriving DecidableEq

/-- HTTP status of each rating reply. -/
def RatingReply.status : RatingReply → Nat
  | .badRating => 400
  | .ratingNotFound => 404
  | .ratingOk _ => 200

/-- The rating route: reject a missing/non-number rating or one outside
1..5 with 400 before calling the store; otherwise `updateOrderRating`, 404
when the order does not exist.  `ratingBody = none` models an absent or
non-number `rating` field; the body value is integer-valued in every
scenario the claims exercise.  The returned `Bool` records whether the
store was called. -/
def updateOrderRatingRoute (st : MemStorage) (id : String) (ratingBody : Option Int) :
    RatingReply × MemStorage × Bool :=
  match ratingBody with
  | none => (.badRating, st, false)
  | some r =>
    if r < 1 || 5 < r then (.badRating, st, false)
    else
      match updateOrderRating st id r with
      | (none, st') => (.ratingNotFound, st', true)
      | (some o, st') => (.ratingOk o, st', true)

/-! ## Cart routes (`src/unnamed/part_001` lines 772–811) -/

/-- Replies of the cart routes. -/
inductive CartReply where
  | cartCreated (item : CartItem)
  | cartBadQuantity
  | cartNotFound
  | cartOk (item : CartItem)
  | cartDeleted
  deriving DecidableEq

/-- HTTP status of each cart reply. -/
def CartReply.status : CartReply → Nat
  | .cartCreated _ => 201
  | .cartBadQuantity => 400
  | .cartNotFound => 404
  | .cartOk _ => 200
  | .cartDeleted => 204

/-- `POST /api/cart`: the schema-validated body goes to `addCartItem`,
201 with the created item. -/
def postCartRoute (st : MemStorage) (validated : InsertCartItem) (id : String) (now : Nat) :
    CartReply × MemStorage :=
  let (item, st') := addCartItem st validated id now
  (.cartCreated item, st')

/-- `PATCH /api/cart/:id`: reject a missing/non-number quantity or one
below 1 with 400; otherwise `updateCartItemQuantity`, 404 when absent. -/
def patchCartRoute (st : MemStorage) (id : String) (quantityBody : Option Int) :
    CartReply × MemStorage :=
  match quantityBody with
  | none => (.cartBadQuantity, st)
  | some q =>
    if q < 1 then (.cartBadQuantity, st)
    else
      match updateCartItemQuantity st id q with
      | (none, st') => (.cartNotFound, st')
      | (some item, st') => (.cartOk item, st')

/-- `DELETE /api/cart/:id`: `removeCartItem`, 404 when the id was not
present, 204 otherwise. -/
def deleteCartRoute (st : MemStorage) (id : String) : CartReply × MemStorage :=
  let (found, st') := removeCartItem st id
  if found then (.cartDeleted, st') else (.cartNotFound, st')

/-! ## Helper lemmas about the map model -/

theorem find?_map_replace (m : List (String × α)) (k : String) (v : α)
    (h : m.any (fun p => p.1 = k) = true) :
    (m.map (fun p => if p.1 = k then (k, v) else p)).find?
      (fun p => decide (p.1 = k)) = some (k, v) := by
  induction m with
  | nil => simp at h
  | cons p rest ih =>
    by_cases hp : p.1 = k
    · simp [hp]
    · simp only [List.any_cons, decide_eq_true_eq, hp, false_or] at h
      simp only [List.map_cons, if_neg hp]
      rw [List.find?_cons_of_neg _ (by simpa using hp)]
      exact ih h

theorem mapGet_mapSet_self (m : List (String × α)) (k : String) (v : α) :
    mapGet (mapSet m k v) k = some v := by
  unfold mapGet mapSet
  by_cases h : m.any (fun p => p.1 = k) = true
  · rw [if_pos h, find?_map_replace m k v h]
    rfl
  · rw [if_neg h]
    have hnone : m.find? (fun p => decide (p.1 = k)) = none := by
      rw [List.find?_eq_none]
      intro x hx hpx
      exact h (List.any_eq_true.mpr ⟨x, hx, hpx⟩)
    rw [List.find?_append, hnone]
    simp

theorem mapGet_none_any_false (m : List (String × α)) (k : String)
    (h : mapGet m k = none) : m.any (fun p => p.1 = k) = false := by
  unfold mapGet at h
  rw [Option.map_eq_none', List.find?_eq_none] at h
  rw [List.any_eq_false]
  intro p hp
  simpa using h p hp

theorem mapSet_length_of_fresh (m : List (String × α)) (k : String) (v : α)
    (h : mapGet m k = none) : (mapSet m k v).length = m.length + 1 := by
  unfold mapSet
  rw [mapGet_none_any_false m k h]
  simp

/-! ## Claims -/

/-- **C6.** The payment-method normalization maps a card payment whose
wallet type is `apple_pay` / `google_pay` to that wallet's brand name
rather than "Credit/Debit Card"; with no payment-method detail at all the
label is "Unknown"; an unrecognized provider type code maps to the
capitalized raw type string. -/
theorem payment_method_normalization :
    normalizePmDetails (some ⟨"card", some "apple_pay"⟩) = "Apple Pay" ∧
    normalizePmDetails (some ⟨"card", some "google_pay"⟩) = "Google Pay" ∧
    normalizePmDetails none = "Unknown" ∧
    ∀ t w, t ∉ (["card", "link", "klarna", "cashapp", "us_bank_account", "crypto"] : List String) →
      normalizePmDetails (some ⟨t, w⟩) = capitalizeFirst t := by
  refine ⟨by decide, by decide, rfl, ?_⟩
  intro t w h
  simp only [List.mem_cons, List.not_mem_nil, or_false, not_or] at h
  obtain ⟨h1, h2, h3, h4, h5, h6⟩ := h
  simp [normalizePmDetails, h1, h2, h3, h4, h5, h6]

/-- Witness for C6: the unrecognized provider type code `sepa_debit` is
outside the recognized set and normalizes to its capitalization. -/
theorem payment_method_normalization_witness :
    "sepa_debit" ∉ (["card", "link", "klarna", "cashapp", "us_bank_account", "crypto"] : List String) ∧
    normalizePmDetails (some ⟨"sepa_debit", none⟩) = capitalizeFirst "sepa_debit" :=
  ⟨by decide, payment_method_normalization.2.2.2 "sepa_debit" none (by decide)⟩

/-- **C10.** `addCartItem` stores the new cart item with quantity `"1"`
unconditionally — any caller-supplied quantity in the insert data is
ignored at creation — and `updateCartItemQuantity` is the operation that
sets a different quantity afterwards (to the decimal string of its
argument, exactly when the item exists). -/
theorem addCartItem_quantity_always_one :
    (∀ st item id now, ((addCartItem st item id now).1).quantity = "1") ∧
    (∀ st id q, ((updateCartItemQuantity st id q).1).map (·.quantity) =
      (mapGet st.cartItems id).map (fun _ => intToString q)) := by
  refine ⟨fun st item id now => rfl, fun st id q => ?_⟩
  unfold updateCartItemQuantity
  cases mapGet st.cartItems id <;> simp

/-- **C9.** The cart lifecycle scenario: adding a cart item without a
quantity field yields quantity `"1"`; updating its quantity to 3 returns
quantity `"3"`; deleting it removes it, and the subsequent listing is
empty. -/
theorem cart_lifecycle_scenario :
    (postCartRoute mkMemStorage ⟨"p1", none, none⟩ "ci1" 10).1 =
      CartReply.cartCreated ⟨"p1", none, "ci1", "1", 10⟩ ∧
    (patchCartRoute (postCartRoute mkMemStorage ⟨"p1", none, none⟩ "ci1" 10).2 "ci1"
        (some 3)).1 = CartReply.cartOk ⟨"p1", none, "ci1", "3", 10⟩ ∧
    (deleteCartRoute
        (patchCartRoute (postCartRoute mkMemStorage ⟨"p1", none, none⟩ "ci1" 10).2 "ci1"
          (some 3)).2 "ci1").1 = CartReply.cartDeleted ∧
    getCartItems
        (deleteCartRoute
          (patchCartRoute (postCartRoute mkMemStorage ⟨"p1", none, none⟩ "ci1" 10).2 "ci1"
            (some 3)).2 "ci1").2 = [] := by
  decide

/-- **C8.** A rating update with an out-of-range value is rejected with 400
before touching storage and leaves the store unmodified; a rating update
with value 3 on an existing order returns an order whose rating is `"3"`;
a rating update on a non-existent order id yields not-found. -/
theorem order_rating_update_behavior :
    (∀ st id r, (r < 1 ∨ 5 < r) →
      updateOrderRatingRoute st id (some r) = (.badRating, st, false)) ∧
    (∀ st id o, getOrder st id = some o →
      ∃ o', (updateOrderRatingRoute st id (some 3)).1 = .ratingOk o' ∧
        o'.rating = some "3") ∧
    (∀ st id, getOrder st id = none →
      (updateOrderRatingRoute st id (some 3)).1 = .ratingNotFound) := by
  refine ⟨?_, ?_, ?_⟩
  · intro st id r h
    have hb : (decide (r < 1) || decide (5 < r)) = true := by
      rcases h with h | h <;> simp [h]
    simp [updateOrderRatingRoute, hb]
  · intro st id o h
    unfold getOrder at h
    refine ⟨{ o with rating := some (intToString 3) }, ?_, rfl⟩
    simp [updateOrderRatingRoute, updateOrderRating, h]
  · intro st id h
    unfold getOrder at h
    simp [updateOrderRatingRoute, updateOrderRating, h]

/-- A store holding one order, used to witness C8. -/
def c8Store : MemStorage :=
  (createOrder mkMemStorage ⟨"A", "a@example.com", "10", "Link", "D"⟩ "order-1" 1).2

/-- Witness for C8: on a store holding exactly order `order-1`, ratings 0
and 6 are rejected with the store untouched, rating 3 yields `"3"`, and a
missing id yields not-found. -/
theorem order_rating_update_behavior_witness :
    updateOrderRatingRoute c8Store "order-1" (some 0) = (.badRating, c8Store, false) ∧
    updateOrderRatingRoute c8Store "order-1" (some 6) = (.badRating, c8Store, false) ∧
    (∃ o', (updateOrderRatingRoute c8Store "order-1" (some 3)).1 = .ratingOk o' ∧
      o'.rating = some "3") ∧
    (updateOrderRatingRoute c8Store "missing" (some 3)).1 = .ratingNotFound :=
  ⟨order_rating_update_behavior.1 c8Store "order-1" 0 (by norm_num),
   order_rating_update_behavior.1 c8Store "order-1" 6 (by norm_num),
   order_rating_update_behavior.2.1 c8Store "order-1"
     (createOrder mkMemStorage ⟨"A", "a@example.com", "10", "Link", "D"⟩ "order-1" 1).1
     (by decide),
   order_rating_update_behavior.2.2 c8Store "missing" (by decide)⟩

/-- **C7.** Checkout initiation rejects a falsy, non-numeric or
non-positive amount with a 400 response before any provider call is made:
no checkout session is created for such input. -/
theorem checkout_rejects_bad_amount (body : CheckoutBody) (pr : Option (String × String))
    (h : jsFalsy body.amount = true ∨ jsParseFloat (body.amount.getD "") = none ∨
        ∃ v, jsParseFloat (body.amount.getD "") = some v ∧ v ≤ 0) :
    createStripeCheckoutSession true body pr = (.invalidAmount, none) ∧
    (createStripeCheckoutSession true body pr).1.status = 400 := by
  have hok : checkoutAmountOk body.amount = false := by
    unfold checkoutAmountOk
    cases hb : body.amount with
    | none => rfl
    | some a =>
      dsimp only
      by_cases ha : a = ""
      · simp [ha]
      · rw [if_neg ha]
        rw [hb] at h
        rcases h with h | h | ⟨v, hv, hvle⟩
        · simp [jsFalsy, ha] at h
        · simp only [Option.getD_some] at h
          simp [h]
        · simp only [Option.getD_some] at hv
          simp [hv, not_lt.mpr hvle]
  constructor
  · simp [createStripeCheckoutSession, hok]
  · simp [createStripeCheckoutSession, hok, CheckoutReply.status]

/-- Witness for C7: the amount `"-5"` parses to the non-positive value −5
and is rejected with 400 and no provider call. -/
theorem checkout_rejects_bad_amount_witness :
    createStripeCheckoutSession true ⟨some "-5", none, none, none, none⟩ none =
      (.invalidAmount, none) ∧
    (createStripeCheckoutSession true ⟨some "-5", none, none, none, none⟩ none).1.status = 400 :=
  checkout_rejects_bad_amount ⟨some "-5", none, none, none, none⟩ none
    (Or.inr (Or.inr ⟨-5, by
      have hp : parseFloatParts "-5" = some (true, 5, 0, 0) := by decide
      simp [jsParseFloat, hp], by norm_num⟩))

/-- **C3.** For an event or session identifier already recorded in the
ledger, a subsequent webhook delivery is acknowledged as success (200,
`received: true`) with the state unchanged and no side-effecting action,
and a donation success redirect with an already-processed session id
redirects to the success indicator without creating a second donation
record. -/
theorem duplicate_delivery_short_circuits
    (env : WebhookEnv) (st : MemStorage) (ev : StripeEvent)
    (hconf : env.stripeConfigured = true)
    (hsig : jsFalsy env.sigHeader = false)
    (hsec : jsFalsy env.webhookSecret = false)
    (hver : env.verifyResult = .verified ev)
    (hproc : isEventProcessed st ev.id = true)
    (denv : DonationEnv) (dst : MemStorage) (sid : String)
    (hsid : denv.sessionId = some sid) (hsidne : sid ≠ "")
    (hdproc : isEventProcessed dst ("donation_" ++ sid) = true) :
    handleStripeWebhook env st = ⟨.alreadyProcessed, st, [.checkLedger ev.id true]⟩ ∧
    WebhookReply.status .alreadyProcessed = 200 ∧
    WebhookReply.isSuccessAck .alreadyProcessed = true ∧
    handleDonationSuccess denv dst =
      ⟨"/?donation_success=true", dst, [.checkLedger ("donation_" ++ sid) true]⟩ := by
  refine ⟨?_, rfl, rfl, ?_⟩
  · simp [handleStripeWebhook, hconf, hsig, hsec, hver, hproc]
  · simp [handleDonationSuccess, hsid, jsFalsy, hsidne, hdproc]

/-- A webhook event already recorded in the ledger, for the C3 witness. -/
def c3Event : StripeEvent :=
  ⟨"evt_dup", "checkout.session.completed", ⟨"cs_dup", none, some 1000, none, none, none, none, none⟩⟩

/-- Webhook environment delivering `c3Event`, for the C3 witness. -/
def c3Env : WebhookEnv :=
  ⟨true, some "sig", some "whsec", .verified c3Event, none, "uuid-c3", 3, true⟩

/-- A store whose ledger already holds both identifiers of the C3 witness. -/
def c3Store : MemStorage :=
  { mkMemStorage with processedEvents := ["evt_dup", "donation_sess_dup"] }

/-- Donation redirect environment with an already-processed session id, for
the C3 witness. -/
def c3DonationEnv : DonationEnv := ⟨some "sess_dup", none, true, "uuid-c3d", 4⟩

/-- Witness for C3 at concrete inputs. -/
theorem duplicate_delivery_short_circuits_witness :
    handleStripeWebhook c3Env c3Store =
      ⟨.alreadyProcessed, c3Store, [.checkLedger "evt_dup" true]⟩ ∧
    handleDonationSuccess c3DonationEnv c3Store =
      ⟨"/?donation_success=true", c3Store, [.checkLedger "donation_sess_dup" true]⟩ :=
  have h := duplicate_delivery_short_circuits c3Env c3Store c3Event rfl rfl rfl rfl
    (by decide) c3DonationEnv c3Store "sess_dup" rfl (by decide) (by decide)
  ⟨h.1, h.2.2.2⟩

/-- A completed checkout event whose confirmation email send will fail,
for the C4 counterexample. -/
def c4Event : StripeEvent :=
  ⟨"evt_fail", "checkout.session.completed",
    ⟨"cs_fail", none, some 2500, some "Alice", some "Custom bot", none,
      some "alice@example.com", none⟩⟩

/-- Webhook environment for the C4 counterexample: every step succeeds
except the notification send. -/
def c4Env : WebhookEnv :=
  ⟨true, some "sig", some "whsec", .verified c4Event, none, "uuid-c4", 5, false⟩

/-- Counterexample to C4 as stated: when the notification send fails after
the order was created, the webhook answers 500 — a failure response, not a
success acknowledgment.  The order does remain in the store and the
failure is logged. -/
theorem webhook_email_failure_answers_500 :
    (handleStripeWebhook c4Env mkMemStorage).reply = .handlerFailed ∧
    (handleStripeWebhook c4Env mkMemStorage).reply.status = 500 ∧
    (handleStripeWebhook c4Env mkMemStorage).reply.isSuccessAck = false ∧
    (handleStripeWebhook c4Env mkMemStorage).state.orders.length = 1 ∧
    Action.logError ∈ (handleStripeWebhook c4Env mkMemStorage).trace := by
  decide

/-- **C4 (amended).** When the webhook processor has created an order and
the subsequent confirmation/business notification send fails, the failure
propagates to the outer catch, which logs it; the created order is not
rolled back — it remains in the store — but the webhook responds with a
500 failure response, not a success acknowledgment. -/
theorem webhook_email_failure_caught_order_kept
    (env : WebhookEnv) (st : MemStorage) (ev : StripeEvent)
    (hconf : env.stripeConfigured = true)
    (hsig : jsFalsy env.sigHeader = false)
    (hsec : jsFalsy env.webhookSecret = false)
    (hver : env.verifyResult = .verified ev)
    (hproc : isEventProcessed st ev.id = false)
    (htype : ev.type = "checkout.session.completed")
    (hmail : env.emailOk = false) :
    (handleStripeWebhook env st).reply = .handlerFailed ∧
    (handleStripeWebhook env st).reply.status = 500 ∧
    Action.logError ∈ (handleStripeWebhook env st).trace ∧
    ∃ o, Action.createOrderAct o ∈ (handleStripeWebhook env st).trace ∧
      mapGet (handleStripeWebhook env st).state.orders env.newUuid = some o := by
  have hcnt : (markEventProcessed st ev.id).orderCounter = st.orderCounter := by
    unfold markEventProcessed
    split <;> rfl
  cases hpi : ev.session.payment_intent with
  | none =>
    simp only [handleStripeWebhook, hconf, hsig, hsec, hver, hproc, htype, hmail, hpi,
      createOrder, generateOrderNumber, hcnt, Bool.not_true, Bool.false_or, if_false,
      if_true, Bool.or_self]
    refine ⟨by simp, by simp [WebhookReply.status], by simp, ?_⟩
    refine ⟨_, ?_, mapGet_mapSet_self _ _ _⟩
    simp
  | some paymentIntentId =>
    simp only [handleStripeWebhook, hconf, hsig, hsec, hver, hproc, htype, hmail, hpi,
      createOrder, generateOrderNumber, hcnt, Bool.not_true, Bool.false_or, if_false,
      if_true, Bool.or_self]
    refine ⟨by simp, by simp [WebhookReply.status], by simp, ?_⟩
    refine ⟨_, ?_, mapGet_mapSet_self _ _ _⟩
    simp

/-- Witness for the amended C4, at the concrete inputs of the
counterexample. -/
theorem webhook_email_failure_caught_order_kept_witness :
    (handleStripeWebhook c4Env mkMemStorage).reply = .handlerFailed ∧
    (handleStripeWebhook c4Env mkMemStorage).reply.status = 500 ∧
    Action.logError ∈ (handleStripeWebhook c4Env mkMemStorage).trace ∧
    ∃ o, Action.createOrderAct o ∈ (handleStripeWebhook c4Env mkMemStorage).trace ∧
      mapGet (handleStripeWebhook c4Env mkMemStorage).state.orders "uuid-c4" = some o :=
  webhook_email_failure_caught_order_kept c4Env mkMemStorage c4Event rfl rfl rfl rfl
    (by decide) rfl rfl

/-- A paid donation checkout session, for the C2 counterexample. -/
def c2Session : DonationSession :=
  ⟨"paid", some "donation", some "Bob", some "bob@example.com", none, some 1500⟩

/-- Donation redirect environment for the C2 counterexample: fresh session
id, successful retrieval and schema validation. -/
def c2DonationEnv : DonationEnv := ⟨some "sess_c2", some c2Session, true, "uuid-c2", 7⟩

/-- The donation record the C2 run creates. -/
def c2Donation : Donation := ⟨"Bob", "bob@example.com", "15.00", some "", "uuid-c2", 7⟩

/-- Counterexample to C2 as stated: in the donation redirect path the
donation record is created *before* the idempotency ledger record is
written — the trace creates and only then marks, so the marker is not
established before side-effecting work in every processing path. -/
theorem donation_path_marks_after_creation :
    (handleDonationSuccess c2DonationEnv mkMemStorage).trace =
      [.checkLedger "donation_sess_c2" false, .retrieveSession "sess_c2",
       .createDonationAct c2Donation, .markLedger "donation_sess_c2"] ∧
    ledgerBeforeSideEffects false (handleDonationSuccess c2DonationEnv mkMemStorage).trace =
      false := by
  decide

theorem ledgerBeforeSideEffects_true (l : List Action) :
    ledgerBeforeSideEffects true l = true := by
  induction l with
  | nil => rfl
  | cons a rest ih =>
    rw [ledgerBeforeSideEffects]
    split
    · exact ih
    · split
      · simpa using ih
      · exact ih

theorem creationBeforeMarks_true (l : List Action) :
    creationBeforeMarks true l = true := by
  induction l with
  | nil => rfl
  | cons a rest ih =>
    rw [creationBeforeMarks]
    split
    · exact ih
    · split
      · simpa using ih
      · exact ih

/-! ## Order number generation (C5) -/

/-- `` `ORD-${c}` ``: the order-number string for counter value `c`. -/
def ordNumString (c : Nat) : String := "ORD-" ++ natToString c

theorem ordNumString_injective : Function.Injective ordNumString := by
  intro a b h
  unfold ordNumString at h
  apply natToString_injective
  apply String.ext
  have hd := congrArg String.data h
  simp only [String.data_append] at hd
  exact List.append_cancel_left hd

/-- Run a sequence of `createOrder` calls (insert data, generated uuid,
creation timestamp) against a store, returning the final store and the
created orders in generation order. -/
def runCreates : MemStorage → List (InsertOrder × String × Nat) → MemStorage × List Order
  | st, [] => (st, [])
  | st, (d, id, now) :: rest =>
    ((runCreates (createOrder st d id now).2 rest).1,
      (createOrder st d id now).1 :: (runCreates (createOrder st d id now).2 rest).2)

theorem runCreates_numbers (ops : List (InsertOrder × String × Nat)) :
    ∀ st : MemStorage,
      (runCreates st ops).2.map (fun o => o.orderNumber) =
        (List.range ops.length).map (fun i => ordNumString (st.orderCounter + 1 + i)) := by
  induction ops with
  | nil => intro st; simp [runCreates]
  | cons op rest ih =>
    intro st
    obtain ⟨d, id, now⟩ := op
    simp only [runCreates, List.map_cons, List.length_cons, List.range_succ_eq_map,
      List.map_map]
    congr 1
    rw [ih]
    refine List.map_congr_left ?_
    intro i _
    show ordNumString _ = ordNumString _
    congr 1
    have hc : (createOrder st d id now).2.orderCounter = st.orderCounter + 1 := rfl
    omega

/-- The store invariant maintained by order creation: keys are unique,
stored order numbers are pairwise distinct, and every stored number is
`ORD-<c>` for some `c` at most the current counter. -/
def StoreNumsOK (st : MemStorage) : Prop :=
  st.orders.Pairwise (fun p q => p.1 ≠ q.1) ∧
  st.orders.Pairwise (fun p q => p.2.orderNumber ≠ q.2.orderNumber) ∧
  ∀ p ∈ st.orders, ∃ c, c ≤ st.orderCounter ∧ p.2.orderNumber = ordNumString c

theorem StoreNumsOK_mk : StoreNumsOK mkMemStorage := by
  refine ⟨List.Pairwise.nil, List.Pairwise.nil, ?_⟩
  intro p hp
  simp [mkMemStorage] at hp

theorem mapSet_StoreNumsOK_aux (l : List (String × Order)) (k : String) (o : Order)
    (cnt : Nat)
    (hkeys : l.Pairwise (fun p q => p.1 ≠ q.1))
    (hnums : l.Pairwise (fun p q => p.2.orderNumber ≠ q.2.orderNumber))
    (hbound : ∀ p ∈ l, ∃ c, c ≤ cnt ∧ p.2.orderNumber = ordNumString c)
    (hnew : o.orderNumber = ordNumString (cnt + 1)) :
    (mapSet l k o).Pairwise (fun p q => p.1 ≠ q.1) ∧
    (mapSet l k o).Pairwise (fun p q => p.2.orderNumber ≠ q.2.orderNumber) ∧
    ∀ p ∈ mapSet l k o, ∃ c, c ≤ cnt + 1 ∧ p.2.orderNumber = ordNumString c := by
  have hne : ∀ p ∈ l, p.2.orderNumber ≠ o.orderNumber := by
    intro p hp heq
    obtain ⟨c, hcle, hcnum⟩ := hbound p hp
    rw [hcnum, hnew] at heq
    have := ordNumString_injective heq
    omega
  unfold mapSet
  by_cases hany : l.any (fun p => p.1 = k) = true
  · rw [if_pos hany]
    have hkey_f : ∀ p : String × Order,
        ((if p.1 = k then (k, o) else p) : String × Order).1 = p.1 := by
      intro p
      by_cases hp : p.1 = k <;> simp [hp]
    refine ⟨?_, ?_, ?_⟩
    · refine List.Pairwise.map _ ?_ hkeys
      intro a b hab
      rw [hkey_f a, hkey_f b]
      exact hab
    · rw [List.pairwise_map]
      refine (hkeys.and hnums).imp_of_mem ?_
      intro a b ha hb hab
      obtain ⟨habk, habn⟩ := hab
      by_cases hak : a.1 = k <;> by_cases hbk : b.1 = k
      · exact absurd (hak.trans hbk.symm) habk
      · rw [if_pos hak, if_neg hbk]
        exact fun heq => hne b hb heq.symm
      · rw [if_neg hak, if_pos hbk]
        exact hne a ha
      · rw [if_neg hak, if_neg hbk]
        exact habn
    · intro p hp
      rw [List.mem_map] at hp
      obtain ⟨q, hq, rfl⟩ := hp
      by_cases hqk : q.1 = k
      · rw [if_pos hqk]
        exact ⟨cnt + 1, le_refl _, hnew⟩
      · rw [if_neg hqk]
        obtain ⟨c, hcle, hcnum⟩ := hbound q hq
        exact ⟨c, by omega, hcnum⟩
  · rw [if_neg hany]
    have hknotin : ∀ p, p ∈ l → ¬ p.1 = k := by
      intro p hp hpk
      exact hany (List.any_eq_true.mpr ⟨p, hp, by simp [hpk]⟩)
    refine ⟨?_, ?_, ?_⟩
    · rw [List.pairwise_append]
      refine ⟨hkeys, by simp, ?_⟩
      intro a ha b hb
      rw [List.mem_singleton] at hb
      subst hb
      exact hknotin a ha
    · rw [List.pairwise_append]
      refine ⟨hnums, by simp, ?_⟩
      intro a ha b hb
      rw [List.mem_singleton] at hb
      subst hb
      exact hne a ha
    · intro p hp
      rw [List.mem_append] at hp
      rcases hp with hp | hp
      · obtain ⟨c, hcle, hcnum⟩ := hbound p hp
        exact ⟨c, by omega, hcnum⟩
      · rw [List.mem_singleton] at hp
        subst hp
        exact ⟨cnt + 1, le_refl _, hnew⟩

theorem createOrder_StoreNumsOK (st : MemStorage) (d : InsertOrder) (id : String) (now : Nat)
    (h : StoreNumsOK st) : StoreNumsOK (createOrder st d id now).2 := by
  obtain ⟨hkeys, hnums, hbound⟩ := h
  exact mapSet_StoreNumsOK_aux st.orders id _ st.orderCounter hkeys hnums hbound rfl

theorem runCreates_StoreNumsOK (ops : List (InsertOrder × String × Nat)) :
    ∀ st : MemStorage, StoreNumsOK st → StoreNumsOK (runCreates st ops).1 := by
  induction ops with
  | nil => intro st h; exact h
  | cons op rest ih =>
    intro st h
    obtain ⟨d, id, now⟩ := op
    exact ih _ (createOrder_StoreNumsOK st d id now h)

/-- **C5.** Order numbers are generated by the store itself — they depend
only on how many orders were created before, never on caller data — and,
in generation order, they are `ORD-1001`, `ORD-1002`, …: each one is of
strictly greater counter value than all previously issued numbers, all
issued numbers are pairwise distinct, and the numbers stored in the final
store are pairwise distinct. -/
theorem order_numbers_generated_unique_increasing
    (ops : List (InsertOrder × String × Nat)) :
    (runCreates mkMemStorage ops).2.map (fun o => o.orderNumber) =
      (List.range ops.length).map (fun i => ordNumString (1001 + i)) ∧
    ((runCreates mkMemStorage ops).2.map (fun o => o.orderNumber)).Pairwise
      (fun a b => ∃ x y, a = ordNumString x ∧ b = ordNumString y ∧ x < y) ∧
    ((runCreates mkMemStorage ops).2.map (fun o => o.orderNumber)).Pairwise (· ≠ ·) ∧
    ((runCreates mkMemStorage ops).1.orders.map
      (fun p => p.2.orderNumber)).Pairwise (· ≠ ·) := by
  have h1 : (runCreates mkMemStorage ops).2.map (fun o => o.orderNumber) =
      (List.range ops.length).map (fun i => ordNumString (1001 + i)) := by
    rw [runCreates_numbers ops mkMemStorage]
    rfl
  refine ⟨h1, ?_, ?_, ?_⟩
  · rw [h1, List.pairwise_map]
    refine List.Pairwise.imp ?_ (List.sorted_lt_range ops.length)
    intro i j hij
    exact ⟨1001 + i, 1001 + j, rfl, rfl, by omega⟩
  · rw [h1, List.pairwise_map]
    refine List.Pairwise.imp ?_ (List.sorted_lt_range ops.length)
    intro i j hij heq
    have := ordNumString_injective heq
    omega
  · have hinv := runCreates_StoreNumsOK ops mkMemStorage StoreNumsOK_mk
    rw [List.pairwise_map]
    exact hinv.2.1

theorem webhook_trace_ledger_first (env : WebhookEnv) (st : MemStorage) :
    ledgerBeforeSideEffects false (handleStripeWebhook env st).trace = true := by
  unfold handleStripeWebhook
  repeat' split
  all_goals
    simp [ledgerBeforeSideEffects, Action.isMark, Action.isSideEffect,
      ledgerBeforeSideEffects_true]

theorem donation_trace_creation_first (denv : DonationEnv) (dst : MemStorage) :
    creationBeforeMarks false (handleDonationSuccess denv dst).trace = true := by
  unfold handleDonationSuccess
  repeat' split
  all_goals
    simp [creationBeforeMarks, Action.isMark, Action.isCreation,
      creationBeforeMarks_true, apply_ite (fun r : DonationResult => r.trace),
      apply_ite (creationBeforeMarks false)]

theorem handleStripeWebhook_already (env : WebhookEnv) (st : MemStorage) (ev : StripeEvent)
    (hconf : env.stripeConfigured = true)
    (hsig : jsFalsy env.sigHeader = false)
    (hsec : jsFalsy env.webhookSecret = false)
    (hver : env.verifyResult = .verified ev)
    (hproc : isEventProcessed st ev.id = true) :
    handleStripeWebhook env st = ⟨.alreadyProcessed, st, [.checkLedger ev.id true]⟩ := by
  simp [handleStripeWebhook, hconf, hsig, hsec, hver, hproc]

theorem deliverN_marked (env : WebhookEnv) (ev : StripeEvent)
    (hconf : env.stripeConfigured = true)
    (hsig : jsFalsy env.sigHeader = false)
    (hsec : jsFalsy env.webhookSecret = false)
    (hver : env.verifyResult = .verified ev) :
    ∀ (m : Nat) (st : MemStorage), isEventProcessed st ev.id = true →
      deliverN env m st =
        (st, List.replicate m ⟨.alreadyProcessed, st, [.checkLedger ev.id true]⟩) := by
  intro m
  induction m with
  | zero => intro st _; rfl
  | succ m ih =>
    intro st hproc
    rw [deliverN, handleStripeWebhook_already env st ev hconf hsig hsec hver hproc]
    simp [ih st hproc, List.replicate_succ]

theorem handleStripeWebhook_fresh_facts (env : WebhookEnv) (st : MemStorage) (ev : StripeEvent)
    (hconf : env.stripeConfigured = true)
    (hsig : jsFalsy env.sigHeader = false)
    (hsec : jsFalsy env.webhookSecret = false)
    (hver : env.verifyResult = .verified ev)
    (hproc : isEventProcessed st ev.id = false)
    (htype : ev.type = "checkout.session.completed")
    (hfresh : mapGet st.orders env.newUuid = none) :
    (handleStripeWebhook env st).state.processedEvents = st.processedEvents ++ [ev.id] ∧
    (handleStripeWebhook env st).state.orders.length = st.orders.length + 1 ∧
    (handleStripeWebhook env st).trace.countP (fun a => a.isCreation) = 1 ∧
    (handleStripeWebhook env st).trace.any (fun a => a.isCreation) = true ∧
    (handleStripeWebhook env st).trace.take 2 =
      [Action.checkLedger ev.id false, Action.markLedger ev.id] := by
  have hcontains : st.processedEvents.contains ev.id = false := hproc
  have hnotmem : ev.id ∉ st.processedEvents := by simpa using hcontains
  have hmark : markEventProcessed st ev.id =
      { st with processedEvents := st.processedEvents ++ [ev.id] } := by
    unfold markEventProcessed
    rw [if_neg (by simp [hnotmem])]
  have hlen : ∀ v : Order, (mapSet st.orders env.newUuid v).length = st.orders.length + 1 :=
    fun v => mapSet_length_of_fresh st.orders env.newUuid v hfresh
  cases hpi : ev.session.payment_intent <;> cases hmail : env.emailOk <;>
    simp [handleStripeWebhook, hconf, hsig, hsec, hver, hproc, htype, hpi, hmail,
      createOrder, generateOrderNumber, hmark, hlen, Action.isCreation, List.countP_cons]

/-- **C1.** Delivering the same verified completed-checkout webhook event
`n ≥ 1` times (sequential redelivery, the provider's at-least-once
behavior) results in exactly one created order and exactly one ledger
record: only the first delivery proceeds past the duplicate check — every
later delivery is acknowledged as a duplicate and performs no creation —
and the processing delivery writes the ledger marker immediately after the
duplicate check (the first two trace actions) and before any
order-creation work. -/
theorem webhook_redelivery_creates_one_order
    (env : WebhookEnv) (st : MemStorage) (ev : StripeEvent) (n : Nat)
    (hconf : env.stripeConfigured = true)
    (hsig : jsFalsy env.sigHeader = false)
    (hsec : jsFalsy env.webhookSecret = false)
    (hver : env.verifyResult = .verified ev)
    (hproc : isEventProcessed st ev.id = false)
    (htype : ev.type = "checkout.session.completed")
    (hfresh : mapGet st.orders env.newUuid = none)
    (hn : 1 ≤ n) :
    (deliverN env n st).1.orders.length = st.orders.length + 1 ∧
    (deliverN env n st).1.processedEvents.count ev.id = 1 ∧
    (deliverN env n st).2.countP (fun r => r.trace.any (fun a => a.isCreation)) = 1 ∧
    (deliverN env n st).2.head?.map (fun r => r.trace.take 2) =
      some [Action.checkLedger ev.id false, Action.markLedger ev.id] ∧
    (∀ r ∈ (deliverN env n st).2, ledgerBeforeSideEffects false r.trace = true) ∧
    (∀ r ∈ (deliverN env n st).2.tail,
      r.reply = .alreadyProcessed ∧ r.trace.any (fun a => a.isCreation) = false) := by
  obtain ⟨m, rfl⟩ : ∃ m, n = m + 1 := ⟨n - 1, by omega⟩
  obtain ⟨f1, f2, fcnt, fany, ftake⟩ :=
    handleStripeWebhook_fresh_facts env st ev hconf hsig hsec hver hproc htype hfresh
  have hmarked : isEventProcessed (handleStripeWebhook env st).state ev.id = true := by
    simp [isEventProcessed, List.contains, f1]
  have hrest := deliverN_marked env ev hconf hsig hsec hver m
    (handleStripeWebhook env st).state hmarked
  have hd : deliverN env (m + 1) st =
      ((handleStripeWebhook env st).state,
        handleStripeWebhook env st ::
          List.replicate m
            ⟨.alreadyProcessed, (handleStripeWebhook env st).state,
              [.checkLedger ev.id true]⟩) := by
    rw [deliverN]
    simp only [hrest]
  have hcount0 : st.processedEvents.count ev.id = 0 := by
    refine List.count_eq_zero.mpr ?_
    intro hmem
    simp [isEventProcessed, List.contains, hmem] at hproc
  refine ⟨?_, ?_, ?_, ?_, ?_, ?_⟩
  · rw [hd]
    exact f2
  · rw [hd]
    simp [f1, List.count_append, hcount0]
  · rw [hd]
    dsimp only
    rw [List.countP_cons_of_pos
      (fun r : WebhookResult => r.trace.any fun a => a.isCreation) _ fany,
      List.countP_replicate]
    simp [Action.isCreation]
  · rw [hd]
    simp [ftake]
  · rw [hd]
    intro r hr
    rcases List.mem_cons.mp hr with h | h
    · rw [h]
      exact webhook_trace_ledger_first env st
    · rw [List.eq_of_mem_replicate h]
      simp [ledgerBeforeSideEffects, Action.isMark, Action.isSideEffect]
  · rw [hd]
    intro r hr
    have hr' : r ∈ List.replicate m
        (⟨.alreadyProcessed, (handleStripeWebhook env st).state,
          [.checkLedger ev.id true]⟩ : WebhookResult) := by simpa using hr
    obtain rfl := List.eq_of_mem_replicate hr'
    exact ⟨rfl, by simp [Action.isCreation]⟩

/-- A completed checkout event for the C1 witness. -/
def c1Event : StripeEvent :=
  ⟨"evt_c1", "checkout.session.completed",
    ⟨"cs_c1", some "pi_1", some 4200, some "Carol", some "Site", none, some "c@d.e", none⟩⟩

/-- Webhook environment delivering `c1Event` with every external call
succeeding. -/
def c1Env : WebhookEnv :=
  ⟨true, some "sig", some "whsec", .verified c1Event, some ⟨"card", some "apple_pay"⟩,
    "uuid-c1", 9, true⟩

/-- Witness for C1: delivering `c1Event` three times to the empty store
creates exactly one order and one ledger record; only the first delivery
creates, and it marks the ledger right after the duplicate check. -/
theorem webhook_redelivery_creates_one_order_witness :
    (deliverN c1Env 3 mkMemStorage).1.orders.length = mkMemStorage.orders.length + 1 ∧
    (deliverN c1Env 3 mkMemStorage).1.processedEvents.count "evt_c1" = 1 ∧
    (deliverN c1Env 3 mkMemStorage).2.countP
      (fun r => r.trace.any (fun a => a.isCreation)) = 1 ∧
    (deliverN c1Env 3 mkMemStorage).2.head?.map (fun r => r.trace.take 2) =
      some [Action.checkLedger "evt_c1" false, Action.markLedger "evt_c1"] ∧
    (∀ r ∈ (deliverN c1Env 3 mkMemStorage).2,
      ledgerBeforeSideEffects false r.trace = true) ∧
    (∀ r ∈ (deliverN c1Env 3 mkMemStorage).2.tail,
      r.reply = .alreadyProcessed ∧ r.trace.any (fun a => a.isCreation) = false) :=
  webhook_redelivery_creates_one_order c1Env mkMemStorage c1Event 3 rfl rfl rfl rfl
    (by decide) rfl (by decide) (by norm_num)

/-- **C2 (amended).** The webhook processing path establishes the ledger
record before any side-effecting work; the donation redirect path instead
creates the donation record first and writes the ledger marker only
afterwards (every ledger write there is preceded by a creation). -/
theorem ledger_ordering_by_path (env : WebhookEnv) (st : MemStorage)
    (denv : DonationEnv) (dst : MemStorage) :
    ledgerBeforeSideEffects false (handleStripeWebhook env st).trace = true ∧
    creationBeforeMarks false (handleDonationSuccess denv dst).trace = true :=
  ⟨webhook_trace_ledger_first env st, donation_trace_creation_first denv dst⟩

end DriftV8
